import Mathlib

/-!
# Verification of `port-kics.py`

A shallow embedding of the `port-kics.py` ETL bridge: it parses a KICS
`results.json` report, builds one `kicsScan` finding entity per query record
and one `service` entity for the repository, and upserts them against the
Port REST API with an exponential-backoff retry helper.

Modelling conventions:
* JSON values are the inductive `JVal`; Python dictionary indexing
  (`d[k]`, which raises `KeyError`/`TypeError`) is `JVal.getKey`, returning
  `Except String JVal` where `.error` models a raised exception.
* File access in `parse_kics_results` is abstracted by `FileInput`:
  the file may be missing (`FileNotFoundError`), unreadable as JSON
  (`json.load` raising), or yield a `JVal`.
* `print` diagnostics are modelled as a returned list of log strings.
* An HTTP `requests.post` call either returns an `HttpResponse` (any status
  code: the `requests` library does not raise on HTTP error statuses) or
  raises a network-level exception; the outcome of the `n`-th entity-upsert
  POST of a run is given by an oracle `Nat → Except E HttpResponse`.
* `time.sleep` durations are recorded in a trace rather than executed.
-/

set_option autoImplicit false

namespace PortKics

/-- JSON values, the data read by `json.load` in `parse_kics_results`. -/
inductive JVal where
  | null : JVal
  | bool : Bool → JVal
  | num : Int → JVal
  | str : String → JVal
  | arr : List JVal → JVal
  | obj : List (String × JVal) → JVal
  deriving Repr

/-- Python dictionary indexing `v[k]`: returns the value when `v` is an
object containing the key, otherwise models the raised `KeyError`
(missing key) or `TypeError` (not a mapping) as an `Except.error`
carrying the printed message. -/
def JVal.getKey : JVal → String → Except String JVal
  | .obj kvs, k =>
    match kvs.find? (fun kv => kv.1 == k) with
    | some kv => .ok kv.2
    | none => .error ("KeyError: " ++ k)
  | _, k => .error ("TypeError: value for key " ++ k ++ " is not subscriptable")

/-- The `properties` sub-dictionary of a finding entity built at
`port-kics.py` lines 89–97.  Record fields are arbitrary JSON values copied
from the query record; `url` is the Python string `repo_name`. -/
structure FindingProps where
  category : JVal
  cloud_provider : JVal
  description : JVal
  files : JVal
  severity : JVal
  platform : JVal
  url : String
  deriving Repr

/-- One finding entity dictionary built per query record
(`port-kics.py` lines 85–98). -/
structure FindingEntity where
  identifier : JVal
  title : JVal
  blueprint : String
  properties : FindingProps
  deriving Repr

/-- The `relations` sub-dictionary of the service entity
(`port-kics.py` lines 121–123). -/
structure ServiceRelations where
  kicsScan : List JVal
  deriving Repr

/-- The service entity dictionary (`port-kics.py` lines 118–124). -/
structure ServiceEntity where
  identifier : String
  blueprint : String
  relations : ServiceRelations
  deriving Repr

/-- Function `create_service_entity(repo_name, query_ids)` at
`port-kics.py` lines 107–124: a pure dictionary literal. -/
def create_service_entity (repo_name : String) (query_ids : List JVal) :
    ServiceEntity :=
  { identifier := repo_name
    blueprint := "service"
    relations := { kicsScan := query_ids } }

/-! ## Report parser (`parse_kics_results`, lines 50–105) -/

/-- What opening and JSON-decoding the report file can yield: the file may
be absent (`FileNotFoundError` from `open`), present but not valid JSON
(`json.load` raises; the message string is carried), or decode to a value. -/
inductive FileInput where
  | notFound : FileInput
  | badJson : String → FileInput
  | content : JVal → FileInput

/-- The body of the `for query in content["queries"]` loop for one record
(`port-kics.py` lines 85–98): eight dictionary accesses in the source's
evaluation order; the first failing access raises. -/
def buildFinding (q : JVal) (repo_name : String) : Except String FindingEntity := do
  let qid ← q.getKey "query_id"
  let qname ← q.getKey "query_name"
  let cat ← q.getKey "category"
  let cp ← q.getKey "cloud_provider"
  let desc ← q.getKey "description"
  let fls ← q.getKey "files"
  let sev ← q.getKey "severity"
  let plat ← q.getKey "platform"
  pure
    { identifier := qid
      title := qname
      blueprint := "kicsScan"
      properties :=
        { category := cat
          cloud_provider := cp
          description := desc
          files := fls
          severity := sev
          platform := plat
          url := repo_name } }

/-- The `for query in content["queries"]` loop: appends one entity per
record to `entities`; a raised exception stops the loop, keeping the
entities collected so far (returned together with the raised message). -/
def parseLoop (repo_name : String) : List JVal → List FindingEntity × Option String
  | [] => ([], none)
  | q :: rest =>
    match buildFinding q repo_name with
    | .ok e =>
      let r := parseLoop repo_name rest
      (e :: r.1, r.2)
    | .error msg => ([], some msg)

/-- Function `parse_kics_results(file_path, repo_name)` at `port-kics.py`
lines 50–105.  Returns the `entities` list together with the diagnostic
messages printed by the two `except` handlers.  A `queries` value that is
not a list is reported through the generic handler with no entities
collected, matching the source, where iterating a non-list either raises
at once or yields elements whose string indexing raises at once. -/
def parse_kics_results (file_path : String) (input : FileInput)
    (repo_name : String) : List FindingEntity × List String :=
  match input with
  | .notFound => ([], ["Error: KICS result file not found at " ++ file_path])
  | .badJson msg => ([], ["Error parsing file: " ++ msg])
  | .content j =>
    match j.getKey "queries" with
    | .error msg => ([], ["Error parsing file: " ++ msg])
    | .ok (.arr qs) =>
      match parseLoop repo_name qs with
      | (es, none) => (es, [])
      | (es, some msg) => (es, ["Error parsing file: " ++ msg])
    | .ok _ => ([], ["Error parsing file: queries value is not a list"])

/-! ## Sync client (`make_api_request` and `retry_with_exponential_backoff`,
lines 7–31) -/

/-- Module-level constant `base_delay = 1` (`port-kics.py` line 7). -/
def base_delay : Nat := 1

/-- Module-level constant `max_retries = 5` (`port-kics.py` line 8). -/
def max_retries : Nat := 5

/-- Module-level constant `max_delay = 32` (`port-kics.py` line 9). -/
def max_delay : Nat := 32

/-- An HTTP response as returned by `requests.post`: the library returns a
response object for every completed HTTP exchange, whatever the status
code, and raises only on network-level errors. -/
structure HttpResponse where
  status : Nat
  body : String
  deriving Repr, DecidableEq

/-- Function `make_api_request(query, headers)` at `port-kics.py` lines 12–14,
as a function of the outcome of its single `requests.post` call: the
response object is bound and discarded (the body is `pass`), so the
function returns `None` (`Unit`) whenever the post does not raise, and
propagates the exception otherwise. -/
def make_api_request {E : Type} (post_outcome : Except E HttpResponse) :
    Except E Unit :=
  match post_outcome with
  | .ok _response => .ok ()
  | .error e => .error e

/-- How a call to `retry_with_exponential_backoff` ends: `success` returns
the wrapped call's result, `failure` is the `raise e` at line 27
propagating the last exception, `exhausted` is the
`raise Exception("All retry attempts failed.")` at line 31 (reachable only
if the `while` guard fails immediately, i.e. never with `max_retries = 5`). -/
inductive RetryOutcome (E A : Type) where
  | success : A → RetryOutcome E A
  | failure : E → RetryOutcome E A
  | exhausted : RetryOutcome E A
  deriving Repr, DecidableEq

/-- Observable behaviour of one `retry_with_exponential_backoff` call:
how many times the wrapped call ran, the `time.sleep` durations in order,
and how the call ended. -/
structure RetryTrace (E A : Type) where
  calls : Nat
  sleeps : List Nat
  outcome : RetryOutcome E A
  deriving Repr, DecidableEq

/-- The `while attempt < max_retries` loop of
`retry_with_exponential_backoff` (`port-kics.py` lines 20–31).  The wrapped
call's outcome on its `n`-th invocation (counted by `calls`, which doubles
as the index into the run's request oracle) is `f n`.  `fuel` bounds the
remaining iterations: `attempt` grows by one per iteration, so
`fuel = max_retries - attempt` at entry keeps the guard and the fuel in
step, and the fuel-exhausted and guard-false exits coincide (line 31).
Note the source never reassigns `delay`, so the sleep is
`min(base_delay * 2 ** attempt, max_delay)` with the already-incremented
`attempt`. -/
def retryAux {E A : Type} (f : Nat → Except E A) :
    Nat → Nat → Nat → Nat → List Nat → RetryTrace E A
  | 0, _, _, calls, sleeps => ⟨calls, sleeps, .exhausted⟩
  | fuel + 1, attempt, delay, calls, sleeps =>
    if attempt < max_retries then
      match f calls with
      | .ok a => ⟨calls + 1, sleeps, .success a⟩
      | .error e =>
        if attempt + 1 ≥ max_retries then
          ⟨calls + 1, sleeps, .failure e⟩
        else
          retryAux f fuel (attempt + 1) delay (calls + 1)
            (sleeps ++ [min (delay * 2 ^ (attempt + 1)) max_delay])
    else ⟨calls, sleeps, .exhausted⟩

/-- Function `retry_with_exponential_backoff(query, headers)` at
`port-kics.py` lines 16–31: `attempt = 0`, `delay = base_delay`, then the
`while` loop. -/
def retry_with_exponential_backoff {E A : Type} (f : Nat → Except E A) :
    RetryTrace E A :=
  retryAux f max_retries 0 base_delay 0 []

/-! ## The `main` driver (lines 126–157) -/

/-- Python `str.split(sep)` for a one-character separator, on character
lists.  Always returns a non-empty list of groups. -/
def splitOnChar (sep : Char) : List Char → List (List Char)
  | [] => [[]]
  | c :: cs =>
    match splitOnChar sep cs with
    | [] => [[]]
    | g :: gs => if c = sep then [] :: g :: gs else (c :: g) :: gs

/-- Expression `full_repo_name.split("/")[-1]` at `port-kics.py` line 139: the last
path segment of the repository name.  `split` always yields a non-empty
list, so Python's `[-1]` never fails; the `getLastD` default is dead. -/
def repoShortName (full_repo_name : String) : String :=
  String.mk ((splitOnChar '/' full_repo_name.toList).getLastD [])

/-- One entity-upsert POST actually issued by a run, in order: either the
single unretried service-entity post at line 150, or one attempt of a
finding-entity post made inside `retry_with_exponential_backoff`. -/
inductive PostedEntity where
  | service : ServiceEntity → PostedEntity
  | finding : FindingEntity → PostedEntity
  deriving Repr

/-- Whether a posted entity is the service entity. -/
def PostedEntity.isService : PostedEntity → Bool
  | .service _ => true
  | .finding _ => false

/-- How a run past the service-entity post can terminate abnormally:
a propagated exception `e` (from the bare post at line 150 or from
`raise e` in the retry helper), or the helper's own
`Exception("All retry attempts failed.")`. -/
inductive RunError (E : Type) where
  | raised : E → RunError E
  | allRetriesFailed : RunError E
  deriving Repr

/-- The retry helper as invoked by `main` at line 154: the wrapped call is
`make_api_request`, whose `requests.post` outcomes are drawn from the
run's oracle starting at global request index `i` (the `calls` counter of
`retryAux` doubles as that index). -/
def retry_from {E : Type} (oracle : Nat → Except E HttpResponse) (i : Nat) :
    RetryTrace E Unit :=
  retryAux (fun n => make_api_request (oracle n)) max_retries 0 base_delay i []

/-- The `for query in results` loop at `port-kics.py` lines 153–154,
starting at global request index `i`: each finding entity goes through the
retry helper; the posts actually issued are recorded, and a terminal
failure of the helper aborts the loop (and the run). -/
def finding_loop {E : Type} (oracle : Nat → Except E HttpResponse) :
    List FindingEntity → Nat → List PostedEntity × Nat × Except (RunError E) Unit
  | [], i => ([], i, .ok ())
  | q :: rest, i =>
    let tr := retry_from oracle i
    let posts := List.replicate (tr.calls - i) (PostedEntity.finding q)
    match tr.outcome with
    | .success _ =>
      let r := finding_loop oracle rest tr.calls
      (posts ++ r.1, r.2)
    | .failure e => (posts, tr.calls, .error (.raised e))
    | .exhausted => (posts, tr.calls, .error .allRetriesFailed)

/-- Everything observable about one run of `main` past authentication. -/
structure MainRun (E : Type) where
  repo_name : String
  results : List FindingEntity
  parse_logs : List String
  query_ids : List JVal
  service_entity : ServiceEntity
  posts : List PostedEntity
  result : Except (RunError E) Unit

/-- Function `main()` at `port-kics.py` lines 126–157, from the repository-name
extraction on (authentication at lines 132–135 precedes this and is out of
scope of the modelled claims).  `oracle n` is the outcome of the `n`-th
entity-upsert `requests.post` of the run: index 0 is the bare service
post at line 150, whose response object is bound to `response` and never
read; indices from 1 feed the finding loop. -/
def main_model {E : Type} (full_repo_name kics_results : String)
    (input : FileInput) (oracle : Nat → Except E HttpResponse) : MainRun E :=
  let repo_name := repoShortName full_repo_name
  let pr := parse_kics_results kics_results input repo_name
  let results := pr.1
  let query_ids := results.map (·.identifier)
  let service_entity := create_service_entity repo_name query_ids
  match oracle 0 with
  | .error e =>
    { repo_name := repo_name, results := results, parse_logs := pr.2
      query_ids := query_ids, service_entity := service_entity
      posts := [.service service_entity], result := .error (.raised e) }
  | .ok _response =>
    let fl := finding_loop oracle results 1
    { repo_name := repo_name, results := results, parse_logs := pr.2
      query_ids := query_ids, service_entity := service_entity
      posts := PostedEntity.service service_entity :: fl.1
      result := fl.2.2 }

/-! ## Retry-helper lemmas -/

/-- One loop iteration whose wrapped call succeeds returns at once. -/
theorem retryAux_ok {E A : Type} {f : Nat → Except E A} {calls : Nat} {a : A}
    (fuel attempt delay : Nat) (sleeps : List Nat)
    (hf : f calls = .ok a) (hlt : attempt < max_retries) :
    retryAux f (fuel + 1) attempt delay calls sleeps
      = ⟨calls + 1, sleeps, .success a⟩ := by
  simp [retryAux, hlt, hf]

/-- One loop iteration whose wrapped call raises with the incremented
attempt counter at the ceiling propagates the error. -/
theorem retryAux_err_last {E A : Type} {f : Nat → Except E A} {calls : Nat} {e : E}
    (fuel attempt delay : Nat) (sleeps : List Nat)
    (hf : f calls = .error e) (hlt : attempt < max_retries)
    (hge : max_retries ≤ attempt + 1) :
    retryAux f (fuel + 1) attempt delay calls sleeps
      = ⟨calls + 1, sleeps, .failure e⟩ := by
  simp [retryAux, hlt, hf, hge]

/-- One loop iteration whose wrapped call raises below the ceiling sleeps
`min(delay * 2 ** attempt, max_delay)` (with the incremented attempt) and
goes around again. -/
theorem retryAux_err_step {E A : Type} {f : Nat → Except E A} {calls : Nat} {e : E}
    (fuel attempt delay : Nat) (sleeps : List Nat)
    (hf : f calls = .error e) (h2 : attempt + 1 < max_retries) :
    retryAux f (fuel + 1) attempt delay calls sleeps
      = retryAux f fuel (attempt + 1) delay (calls + 1)
          (sleeps ++ [min (delay * 2 ^ (attempt + 1)) max_delay]) := by
  simp [retryAux, Nat.lt_of_succ_lt h2, hf, Nat.not_le.mpr h2]

/-- A wrapped call succeeding on its first invocation ends the helper
after exactly one call and no sleep. -/
theorem retry_first_call_ok {E A : Type} {f : Nat → Except E A} {a : A}
    (hf : f 0 = .ok a) :
    retry_with_exponential_backoff f = ⟨1, [], .success a⟩ := by
  show retryAux f 5 0 1 0 [] = ⟨1, [], .success a⟩
  rw [retryAux_ok 4 0 1 [] hf (by decide)]

/-! ## Claims about the retry helper -/

/-- C1: an upsert function that raises on every call makes the retry
helper perform exactly 5 calls, then propagate the last error, and every
sleep between attempts is at most 32 time-units. -/
theorem retry_always_failing_raises_after_five_calls {E A : Type}
    (f : Nat → Except E A) (es : Nat → E)
    (h : ∀ n, f n = .error (es n)) :
    (retry_with_exponential_backoff f).calls = 5 ∧
    (retry_with_exponential_backoff f).outcome = .failure (es 4) ∧
    ∀ s ∈ (retry_with_exponential_backoff f).sleeps, s ≤ 32 := by
  have hf : f = fun n => Except.error (es n) := funext h
  subst hf
  have ht : retry_with_exponential_backoff (fun n => (Except.error (es n) : Except E A))
      = ⟨5, [2, 4, 8, 16], .failure (es 4)⟩ := rfl
  rw [ht]
  refine ⟨rfl, rfl, ?_⟩
  show ∀ s ∈ [2, 4, 8, 16], s ≤ 32
  decide

/-- Witness for C1 at the concrete always-failing function
`fun _ => Except.error 7`. -/
theorem retry_always_failing_raises_after_five_calls_witness :
    (retry_with_exponential_backoff (fun _ => (Except.error 7 : Except Nat Unit))).calls = 5 ∧
    (retry_with_exponential_backoff (fun _ => (Except.error 7 : Except Nat Unit))).outcome
      = .failure 7 ∧
    ∀ s ∈ (retry_with_exponential_backoff (fun _ => (Except.error 7 : Except Nat Unit))).sleeps,
      s ≤ 32 :=
  retry_always_failing_raises_after_five_calls _ (fun _ => 7) (fun _ => rfl)

/-- C2: an upsert function that raises on its first two calls and succeeds
on the third makes the retry helper return that success after exactly 3
calls, having slept `min(1*2,32) = 2` then `min(1*4,32) = 4`. -/
theorem retry_succeeds_on_third_call {E A : Type} (f : Nat → Except E A)
    (e0 e1 : E) (a : A)
    (h0 : f 0 = .error e0) (h1 : f 1 = .error e1) (h2 : f 2 = .ok a) :
    retry_with_exponential_backoff f = ⟨3, [2, 4], .success a⟩ := by
  show retryAux f 5 0 1 0 [] = ⟨3, [2, 4], .success a⟩
  rw [retryAux_err_step 4 0 1 [] h0 (by decide)]
  show retryAux f 4 1 1 1 [2] = ⟨3, [2, 4], .success a⟩
  rw [retryAux_err_step 3 1 1 [2] h1 (by decide)]
  show retryAux f 3 2 1 2 [2, 4] = ⟨3, [2, 4], .success a⟩
  rw [retryAux_ok 2 2 1 [2, 4] h2 (by decide)]

/-- Witness for C2 at the concrete function failing on calls 0 and 1 and
succeeding with value 99 on call 2. -/
theorem retry_succeeds_on_third_call_witness :
    retry_with_exponential_backoff
        (fun n => if n < 2 then (Except.error n : Except Nat Nat) else .ok 99)
      = ⟨3, [2, 4], .success 99⟩ :=
  retry_succeeds_on_third_call _ 0 1 99 rfl rfl rfl

/-- C10: `make_api_request` discards the HTTP response and returns `None`
whenever its post does not raise; hence the retry helper treats any
returned response — whatever its status — as success, returning `None`
after one call, and a second call happens only when the first post raised
an exception. -/
theorem make_api_request_discards_response {E : Type} :
    (∀ r : HttpResponse, @make_api_request E (.ok r) = .ok ()) ∧
    (∀ (posts : Nat → Except E HttpResponse) (r : HttpResponse),
      posts 0 = .ok r →
      retry_with_exponential_backoff (fun n => make_api_request (posts n))
        = ⟨1, [], .success ()⟩) ∧
    (∀ posts : Nat → Except E HttpResponse,
      1 < (retry_with_exponential_backoff (fun n => make_api_request (posts n))).calls →
      ∃ e, posts 0 = .error e) := by
  refine ⟨fun r => rfl, fun posts r hp => ?_, fun posts hc => ?_⟩
  · exact retry_first_call_ok (by simp [make_api_request, hp])
  · cases hp : posts 0 with
    | ok r =>
      have hok : (fun n => make_api_request (posts n)) 0 = Except.ok () := by
        simp [make_api_request, hp]
      rw [retry_first_call_ok hok] at hc
      simp at hc
    | error e => exact ⟨e, rfl⟩

/-- Witness for C10 at a concrete rate-limit response (HTTP 429): the
request function returns `None` and the retry helper reports success after
a single call. -/
theorem make_api_request_discards_response_witness :
    @make_api_request Nat (.ok ⟨429, "Too Many Requests"⟩) = .ok () ∧
    retry_with_exponential_backoff
        (fun n => make_api_request
          ((fun _ => (.ok ⟨429, "Too Many Requests"⟩ : Except Nat HttpResponse)) n))
      = ⟨1, [], .success ()⟩ :=
  ⟨make_api_request_discards_response.1 ⟨429, "Too Many Requests"⟩,
   make_api_request_discards_response.2.1 _ ⟨429, "Too Many Requests"⟩ rfl⟩

/-! ## Parser lemmas -/

/-- Unfolding `buildFinding` on a record supplying all eight keys. -/
theorem buildFinding_eq {q : JVal} {repo : String} {v1 v2 v3 v4 v5 v6 v7 v8 : JVal}
    (h1 : q.getKey "query_id" = .ok v1) (h2 : q.getKey "query_name" = .ok v2)
    (h3 : q.getKey "category" = .ok v3) (h4 : q.getKey "cloud_provider" = .ok v4)
    (h5 : q.getKey "description" = .ok v5) (h6 : q.getKey "files" = .ok v6)
    (h7 : q.getKey "severity" = .ok v7) (h8 : q.getKey "platform" = .ok v8) :
    buildFinding q repo = .ok
      { identifier := v1, title := v2, blueprint := "kicsScan",
        properties := { category := v3, cloud_provider := v4, description := v5,
                        files := v6, severity := v7, platform := v8, url := repo } } := by
  simp only [buildFinding, h1, h2, h3, h4, h5, h6, h7, h8]
  rfl

/-- When every record of the list builds the finding `F i`, the loop
collects exactly `F 0, …, F (N-1)` and raises nothing. -/
theorem parseLoop_of_fn {repo : String} (qs : List JVal) (F : Nat → FindingEntity)
    (hb : ∀ i (hi : i < qs.length), buildFinding (qs.get ⟨i, hi⟩) repo = .ok (F i)) :
    parseLoop repo qs = ((List.range qs.length).map F, none) := by
  induction qs generalizing F with
  | nil => rfl
  | cons q rest ih =>
    have h0 : buildFinding q repo = .ok (F 0) := hb 0 (Nat.succ_pos _)
    have ih' := ih (fun i => F (i + 1)) (fun i hi => hb (i + 1) (Nat.succ_lt_succ hi))
    simp [parseLoop, h0, ih', List.range_succ_eq_map, Function.comp]

/-- When the first `pre.length` records build `F 0, …` and the next record
raises `msg`, the loop stops there, keeping the entities collected so
far. -/
theorem parseLoop_err_at {repo : String} (pre : List JVal) (q : JVal)
    (rest : List JVal) (F : Nat → FindingEntity) (msg : String)
    (hpre : ∀ i (hi : i < pre.length), buildFinding (pre.get ⟨i, hi⟩) repo = .ok (F i))
    (hq : buildFinding q repo = .error msg) :
    parseLoop repo (pre ++ q :: rest) = ((List.range pre.length).map F, some msg) := by
  induction pre generalizing F with
  | nil => simp [parseLoop, hq]
  | cons p pre' ih =>
    have h0 : buildFinding p repo = .ok (F 0) := hpre 0 (Nat.succ_pos _)
    have ih' := ih (fun i => F (i + 1)) (fun i hi => hpre (i + 1) (Nat.succ_lt_succ hi))
    simp [parseLoop, h0, ih', List.range_succ_eq_map, Function.comp]

/-! ## Claims about the parser -/

/-- C3: on a report whose `queries` key holds `N` records each supplying
the eight required keys, the parser returns exactly `N` finding entities
in record order, the `i`-th having identifier `query_id`, title
`query_name`, blueprint `"kicsScan"`, the six properties copied from the
record, and url equal to the supplied repository short name. -/
theorem parser_maps_each_record (repo path : String) (j : JVal) (qs : List JVal)
    (qid qname cat cp desc fls sev plat : Nat → JVal)
    (hq : j.getKey "queries" = .ok (.arr qs))
    (hrec : ∀ i (hi : i < qs.length),
      (qs.get ⟨i, hi⟩).getKey "query_id" = .ok (qid i) ∧
      (qs.get ⟨i, hi⟩).getKey "query_name" = .ok (qname i) ∧
      (qs.get ⟨i, hi⟩).getKey "category" = .ok (cat i) ∧
      (qs.get ⟨i, hi⟩).getKey "cloud_provider" = .ok (cp i) ∧
      (qs.get ⟨i, hi⟩).getKey "description" = .ok (desc i) ∧
      (qs.get ⟨i, hi⟩).getKey "files" = .ok (fls i) ∧
      (qs.get ⟨i, hi⟩).getKey "severity" = .ok (sev i) ∧
      (qs.get ⟨i, hi⟩).getKey "platform" = .ok (plat i)) :
    (parse_kics_results path (.content j) repo).2 = [] ∧
    (parse_kics_results path (.content j) repo).1.length = qs.length ∧
    ∀ i (hi : i < qs.length)
      (hi2 : i < (parse_kics_results path (.content j) repo).1.length),
      (parse_kics_results path (.content j) repo).1.get ⟨i, hi2⟩ =
        { identifier := qid i, title := qname i, blueprint := "kicsScan",
          properties := { category := cat i, cloud_provider := cp i,
                          description := desc i, files := fls i, severity := sev i,
                          platform := plat i, url := repo } } := by
  have hb : ∀ i (hi : i < qs.length),
      buildFinding (qs.get ⟨i, hi⟩) repo = .ok
        { identifier := qid i, title := qname i, blueprint := "kicsScan",
          properties := { category := cat i, cloud_provider := cp i,
                          description := desc i, files := fls i, severity := sev i,
                          platform := plat i, url := repo } } := by
    intro i hi
    obtain ⟨k1, k2, k3, k4, k5, k6, k7, k8⟩ := hrec i hi
    exact buildFinding_eq k1 k2 k3 k4 k5 k6 k7 k8
  have hpl := parseLoop_of_fn qs _ hb
  have hp : parse_kics_results path (.content j) repo
      = ((List.range qs.length).map (fun i =>
          ({ identifier := qid i, title := qname i, blueprint := "kicsScan",
             properties := { category := cat i, cloud_provider := cp i,
                             description := desc i, files := fls i, severity := sev i,
                             platform := plat i, url := repo } } : FindingEntity)), []) := by
    simp [parse_kics_results, hq, hpl]
  rw [hp]
  refine ⟨rfl, by simp, ?_⟩
  intro i _hi hi2
  simp

/-- Witness for C3: a two-record report parses to its two finding
entities, in order, with urls overridden by the repository name. -/
theorem parser_maps_each_record_witness :
    (parse_kics_results "results.json"
        (.content (.obj [("queries", .arr
          [.obj [("query_id", .str "Q1"), ("query_name", .str "N1"),
                 ("category", .str "c1"), ("cloud_provider", .str "p1"),
                 ("description", .str "d1"), ("files", .arr [.str "f1"]),
                 ("severity", .str "HIGH"), ("platform", .str "tf")],
           .obj [("query_id", .str "Q2"), ("query_name", .str "N2"),
                 ("category", .str "c2"), ("cloud_provider", .str "p2"),
                 ("description", .str "d2"), ("files", .arr [.str "f2"]),
                 ("severity", .str "LOW"), ("platform", .str "tf")]])]))
        "repo-w").2 = [] ∧
    (parse_kics_results "results.json"
        (.content (.obj [("queries", .arr
          [.obj [("query_id", .str "Q1"), ("query_name", .str "N1"),
                 ("category", .str "c1"), ("cloud_provider", .str "p1"),
                 ("description", .str "d1"), ("files", .arr [.str "f1"]),
                 ("severity", .str "HIGH"), ("platform", .str "tf")],
           .obj [("query_id", .str "Q2"), ("query_name", .str "N2"),
                 ("category", .str "c2"), ("cloud_provider", .str "p2"),
                 ("description", .str "d2"), ("files", .arr [.str "f2"]),
                 ("severity", .str "LOW"), ("platform", .str "tf")]])]))
        "repo-w").1.length = 2 := by
  have h := parser_maps_each_record "repo-w" "results.json"
    (.obj [("queries", .arr
      [.obj [("query_id", .str "Q1"), ("query_name", .str "N1"),
             ("category", .str "c1"), ("cloud_provider", .str "p1"),
             ("description", .str "d1"), ("files", .arr [.str "f1"]),
             ("severity", .str "HIGH"), ("platform", .str "tf")],
       .obj [("query_id", .str "Q2"), ("query_name", .str "N2"),
             ("category", .str "c2"), ("cloud_provider", .str "p2"),
             ("description", .str "d2"), ("files", .arr [.str "f2"]),
             ("severity", .str "LOW"), ("platform", .str "tf")]])])
    [.obj [("query_id", .str "Q1"), ("query_name", .str "N1"),
           ("category", .str "c1"), ("cloud_provider", .str "p1"),
           ("description", .str "d1"), ("files", .arr [.str "f1"]),
           ("severity", .str "HIGH"), ("platform", .str "tf")],
     .obj [("query_id", .str "Q2"), ("query_name", .str "N2"),
           ("category", .str "c2"), ("cloud_provider", .str "p2"),
           ("description", .str "d2"), ("files", .arr [.str "f2"]),
           ("severity", .str "LOW"), ("platform", .str "tf")]]
    (fun i => if i = 0 then .str "Q1" else .str "Q2")
    (fun i => if i = 0 then .str "N1" else .str "N2")
    (fun i => if i = 0 then .str "c1" else .str "c2")
    (fun i => if i = 0 then .str "p1" else .str "p2")
    (fun i => if i = 0 then .str "d1" else .str "d2")
    (fun i => if i = 0 then .arr [.str "f1"] else .arr [.str "f2"])
    (fun i => if i = 0 then .str "HIGH" else .str "LOW")
    (fun _ => .str "tf")
    rfl
    (by
      intro i hi
      match i, hi with
      | 0, _ => exact ⟨rfl, rfl, rfl, rfl, rfl, rfl, rfl, rfl⟩
      | 1, _ => exact ⟨rfl, rfl, rfl, rfl, rfl, rfl, rfl, rfl⟩)
  exact ⟨h.1, h.2.1⟩

/-- C7: on a path that does not resolve to a file, the parser returns (it
models the caught `FileNotFoundError`, raising nothing), produces no
entities, and logs exactly the dedicated file-not-found message, which
differs from every message the generic parse-error handler can print. -/
theorem parser_handles_missing_file (path repo : String) :
    parse_kics_results path .notFound repo
      = ([], ["Error: KICS result file not found at " ++ path]) ∧
    ∀ msg : String,
      "Error: KICS result file not found at " ++ path ≠ "Error parsing file: " ++ msg := by
  refine ⟨rfl, fun msg h => ?_⟩
  have hd := congrArg String.data h
  rw [String.data_append, String.data_append] at hd
  have h6 := congrArg (List.take 6) hd
  rw [List.take_append_of_le_length (by decide),
    List.take_append_of_le_length (by decide)] at h6
  exact absurd h6 (by decide)

/-- Witness for C7 at the concrete path `"kics.json"`: no entities, the
dedicated log line, and distinctness from a concrete parse-error line. -/
theorem parser_handles_missing_file_witness :
    parse_kics_results "kics.json" .notFound "repo-w7"
      = ([], ["Error: KICS result file not found at kics.json"]) ∧
    "Error: KICS result file not found at " ++ "kics.json"
      ≠ "Error parsing file: " ++ "Expecting value" :=
  ⟨(parser_handles_missing_file "kics.json" "repo-w7").1,
   (parser_handles_missing_file "kics.json" "repo-w7").2 "Expecting value"⟩

/-- C8: on malformed JSON, a missing `queries` key, or a record missing a
required key, the parser returns (raising nothing) the entities collected
before the error together with an error log: the empty sequence when the
error precedes the loop, a partial sequence when a mid-loop record is
malformed. -/
theorem parser_recovers_from_parse_errors (path repo : String) :
    (∀ msg, parse_kics_results path (.badJson msg) repo
        = ([], ["Error parsing file: " ++ msg])) ∧
    (∀ (j : JVal) (msg : String), j.getKey "queries" = .error msg →
      parse_kics_results path (.content j) repo
        = ([], ["Error parsing file: " ++ msg])) ∧
    (∀ (j : JVal) (pre : List JVal) (q : JVal) (rest : List JVal)
      (F : Nat → FindingEntity) (msg : String),
      j.getKey "queries" = .ok (.arr (pre ++ q :: rest)) →
      (∀ i (hi : i < pre.length), buildFinding (pre.get ⟨i, hi⟩) repo = .ok (F i)) →
      buildFinding q repo = .error msg →
      parse_kics_results path (.content j) repo
        = ((List.range pre.length).map F, ["Error parsing file: " ++ msg])) := by
  refine ⟨fun msg => rfl, fun j msg hj => ?_, fun j pre q rest F msg hj hpre hq => ?_⟩
  · simp [parse_kics_results, hj]
  · have hpl := parseLoop_err_at pre q rest F msg hpre hq
    simp [parse_kics_results, hj, hpl]

/-- Witness for C8: a report whose second record is a bare string (its
indexing raises a `TypeError`) yields the first record's entity and an
error log; a report without `queries` yields no entities and an error
log. -/
theorem parser_recovers_from_parse_errors_witness :
    parse_kics_results "r.json" (.badJson "Expecting value") "repo-w2"
      = ([], ["Error parsing file: Expecting value"]) ∧
    parse_kics_results "r.json" (.content (.obj [("totals", .num 3)])) "repo-w2"
      = ([], ["Error parsing file: KeyError: queries"]) ∧
    parse_kics_results "r.json"
        (.content (.obj [("queries", .arr
          [.obj [("query_id", .str "Q1"), ("query_name", .str "N1"),
                 ("category", .str "c1"), ("cloud_provider", .str "p1"),
                 ("description", .str "d1"), ("files", .arr [.str "f1"]),
                 ("severity", .str "HIGH"), ("platform", .str "tf")],
           .str "bad record"])]))
        "repo-w2"
      = ([{ identifier := .str "Q1", title := .str "N1", blueprint := "kicsScan",
            properties := { category := .str "c1", cloud_provider := .str "p1",
                            description := .str "d1", files := .arr [.str "f1"],
                            severity := .str "HIGH", platform := .str "tf",
                            url := "repo-w2" } }],
         ["Error parsing file: TypeError: value for key query_id is not subscriptable"]) := by
  refine ⟨(parser_recovers_from_parse_errors "r.json" "repo-w2").1 "Expecting value",
    (parser_recovers_from_parse_errors "r.json" "repo-w2").2.1 _ _ rfl, ?_⟩
  have h := (parser_recovers_from_parse_errors "r.json" "repo-w2").2.2
    (.obj [("queries", .arr
      [.obj [("query_id", .str "Q1"), ("query_name", .str "N1"),
             ("category", .str "c1"), ("cloud_provider", .str "p1"),
             ("description", .str "d1"), ("files", .arr [.str "f1"]),
             ("severity", .str "HIGH"), ("platform", .str "tf")],
       .str "bad record"])])
    [.obj [("query_id", .str "Q1"), ("query_name", .str "N1"),
           ("category", .str "c1"), ("cloud_provider", .str "p1"),
           ("description", .str "d1"), ("files", .arr [.str "f1"]),
           ("severity", .str "HIGH"), ("platform", .str "tf")]]
    (.str "bad record") []
    (fun _ => { identifier := .str "Q1", title := .str "N1", blueprint := "kicsScan",
                properties := { category := .str "c1", cloud_provider := .str "p1",
                                description := .str "d1", files := .arr [.str "f1"],
                                severity := .str "HIGH", platform := .str "tf",
                                url := "repo-w2" } })
    "TypeError: value for key query_id is not subscriptable"
    rfl
    (by
      intro i hi
      match i, hi with
      | 0, _ => exact buildFinding_eq rfl rfl rfl rfl rfl rfl rfl rfl)
    rfl
  simpa using h

/-! ## Claims about the entity builder and the end-to-end run -/

/-- C6: `create_service_entity` is a pure total function: on every
repository name and identifier list it returns exactly the service
dictionary with those relations; on `"repo-a"` and
`["CVE-1", "CVE-2"]` it returns the documented entity, and an empty
identifier list yields an empty relation set. -/
theorem create_service_entity_total (repo : String) (ids : List JVal) :
    create_service_entity repo ids
      = { identifier := repo, blueprint := "service",
          relations := { kicsScan := ids } } ∧
    create_service_entity "repo-a" [.str "CVE-1", .str "CVE-2"]
      = { identifier := "repo-a", blueprint := "service",
          relations := { kicsScan := [.str "CVE-1", .str "CVE-2"] } } ∧
    (create_service_entity repo []).relations.kicsScan = [] :=
  ⟨rfl, rfl, rfl⟩

/-- Witness for C6 at the documented concrete inputs. -/
theorem create_service_entity_total_witness :
    create_service_entity "repo-a" [.str "CVE-1", .str "CVE-2"]
      = { identifier := "repo-a", blueprint := "service",
          relations := { kicsScan := [.str "CVE-1", .str "CVE-2"] } } ∧
    create_service_entity "repo-a" [.str "CVE-1", .str "CVE-2"]
      = { identifier := "repo-a", blueprint := "service",
          relations := { kicsScan := [.str "CVE-1", .str "CVE-2"] } } ∧
    (create_service_entity "repo-a" []).relations.kicsScan = [] :=
  create_service_entity_total "repo-a" [.str "CVE-1", .str "CVE-2"]

/-- The single query record of the spec's end-to-end example. -/
def sampleQuery : JVal :=
  .obj [("query_id", .str "Q1"), ("query_name", .str "T1"),
        ("category", .str "C"), ("cloud_provider", .str "aws"),
        ("description", .str "D"), ("files", .arr [.str "a.tf"]),
        ("severity", .str "HIGH"), ("platform", .str "Terraform")]

/-- The report of the spec's end-to-end example. -/
def sampleReport : JVal := .obj [("queries", .arr [sampleQuery])]

/-- C9: with `GITHUB_REPOSITORY = "org/myrepo"` and the one-query report,
the run takes the last path segment `"myrepo"` as the short name, builds
the service entity `"myrepo"` with relation `["Q1"]`, and produces exactly
one finding entity with identifier `"Q1"` and url `"myrepo"`. -/
theorem end_to_end_org_myrepo :
    (@main_model Unit "org/myrepo" "results.json" (.content sampleReport)
        (fun _ => .ok ⟨200, "ok"⟩)).repo_name = "myrepo" ∧
    (@main_model Unit "org/myrepo" "results.json" (.content sampleReport)
        (fun _ => .ok ⟨200, "ok"⟩)).service_entity
      = { identifier := "myrepo", blueprint := "service",
          relations := { kicsScan := [.str "Q1"] } } ∧
    (@main_model Unit "org/myrepo" "results.json" (.content sampleReport)
        (fun _ => .ok ⟨200, "ok"⟩)).results
      = [{ identifier := .str "Q1", title := .str "T1", blueprint := "kicsScan",
           properties := { category := .str "C", cloud_provider := .str "aws",
                           description := .str "D", files := .arr [.str "a.tf"],
                           severity := .str "HIGH", platform := .str "Terraform",
                           url := "myrepo" } }] :=
  ⟨rfl, rfl, rfl⟩

/-! ## Lemmas about the run trace -/

/-- The retry loop never consults the request oracle below its starting
index: two oracles agreeing from `calls` on give the same trace. -/
theorem retryAux_congr {E A : Type} (f g : Nat → Except E A)
    (fuel attempt delay calls : Nat) (sleeps : List Nat)
    (h : ∀ n, calls ≤ n → f n = g n) :
    retryAux f fuel attempt delay calls sleeps
      = retryAux g fuel attempt delay calls sleeps := by
  induction fuel generalizing attempt calls sleeps h with
  | zero => rfl
  | succ fuel ih =>
    by_cases hlt : attempt < max_retries
    · simp only [retryAux, if_pos hlt]
      rw [h calls (Nat.le_refl _)]
      cases hg : g calls with
      | ok a => rfl
      | error e =>
        by_cases h2 : max_retries ≤ attempt + 1
        · simp only [if_pos h2]
        · simp only [if_neg h2]
          exact ih _ _ _ (fun n hn => h n (Nat.le_of_succ_le hn))
    · simp only [retryAux, if_neg hlt]

/-- The call counter of the retry loop never decreases. -/
theorem retryAux_calls_le {E A : Type} (f : Nat → Except E A)
    (fuel attempt delay calls : Nat) (sleeps : List Nat) :
    calls ≤ (retryAux f fuel attempt delay calls sleeps).calls := by
  induction fuel generalizing attempt calls sleeps with
  | zero => exact Nat.le_refl _
  | succ fuel ih =>
    by_cases hlt : attempt < max_retries
    · simp only [retryAux, if_pos hlt]
      cases f calls with
      | ok a => exact Nat.le_succ _
      | error e =>
        by_cases h2 : max_retries ≤ attempt + 1
        · simp only [if_pos h2]
          exact Nat.le_succ _
        · simp only [if_neg h2]
          exact Nat.le_trans (Nat.le_succ _) (ih _ _ _)
    · simp only [retryAux, if_neg hlt]
      exact Nat.le_refl _

/-- The finding loop never consults the request oracle below its starting
index. -/
theorem finding_loop_congr {E : Type} (f g : Nat → Except E HttpResponse)
    (l : List FindingEntity) (i : Nat) (h : ∀ n, i ≤ n → f n = g n) :
    finding_loop f l i = finding_loop g l i := by
  induction l generalizing i h with
  | nil => rfl
  | cons q rest ih =>
    have htr : retry_from f i = retry_from g i :=
      retryAux_congr _ _ _ _ _ _ _ (fun n hn => by rw [h n hn])
    have hle : i ≤ (retry_from g i).calls := retryAux_calls_le _ _ _ _ _ _
    simp only [finding_loop, htr]
    cases (retry_from g i).outcome with
    | success a =>
      rw [ih _ (fun n hn => h n (Nat.le_trans hle hn))]
    | failure e => rfl
    | exhausted => rfl

/-- Every post issued by the finding loop is a finding post. -/
theorem finding_loop_posts_findings {E : Type}
    (oracle : Nat → Except E HttpResponse) (l : List FindingEntity) (i : Nat) :
    ∀ p ∈ (finding_loop oracle l i).1, p.isService = false := by
  induction l generalizing i with
  | nil => intro p hp; simp [finding_loop] at hp
  | cons q rest ih =>
    intro p hp
    cases ho : (retry_from oracle i).outcome with
    | success a =>
      simp only [finding_loop, ho, List.mem_append] at hp
      rcases hp with hp | hp
      · rcases List.eq_of_mem_replicate hp with rfl
        rfl
      · exact ih _ p hp
    | failure e =>
      simp only [finding_loop, ho] at hp
      rcases List.eq_of_mem_replicate hp with rfl
      rfl
    | exhausted =>
      simp only [finding_loop, ho] at hp
      rcases List.eq_of_mem_replicate hp with rfl
      rfl

/-- When every post of the run succeeds, the loop posts each finding
exactly once, in order. -/
theorem finding_loop_all_ok {E : Type} (oracle : Nat → Except E HttpResponse)
    (hok : ∀ n, ∃ r, oracle n = .ok r) (l : List FindingEntity) (i : Nat) :
    finding_loop oracle l i
      = (l.map PostedEntity.finding, i + l.length, .ok ()) := by
  induction l generalizing i with
  | nil => rfl
  | cons q rest ih =>
    obtain ⟨r, hr⟩ := hok i
    have hfi : (fun n => make_api_request (oracle n)) i = Except.ok () := by
      simp [make_api_request, hr]
    have htr : retry_from oracle i = ⟨i + 1, [], .success ()⟩ := by
      show retryAux (fun n => make_api_request (oracle n)) 5 0 1 i [] = _
      rw [retryAux_ok 4 0 1 [] hfi (by decide)]
    simp only [finding_loop, htr, ih (i + 1), Nat.add_sub_cancel_left,
      List.replicate_one, List.singleton_append, List.map_cons, List.length_cons]
    have harith : i + 1 + rest.length = i + (rest.length + 1) := by omega
    rw [harith]

/-! ## Claims about the run -/

/-- C4: the service-entity upsert is issued exactly once per run (never
through the retry helper, so never re-posted), before any finding post,
and its response is never checked: runs receiving any two responses to
that post — including error or rate-limit statuses — are identical. -/
theorem service_upsert_once_unretried_unchecked {E : Type}
    (full path : String) (input : FileInput)
    (oracle : Nat → Except E HttpResponse) (r r' : HttpResponse) :
    (main_model full path input oracle).posts.filter PostedEntity.isService
      = [.service (main_model full path input oracle).service_entity] ∧
    (main_model full path input oracle).posts.head?
      = some (.service (main_model full path input oracle).service_entity) ∧
    main_model full path input (fun n => if n = 0 then .ok r else oracle n)
      = main_model full path input (fun n => if n = 0 then .ok r' else oracle n) := by
  refine ⟨?_, ?_, ?_⟩
  · cases ho : oracle 0 with
    | error e => simp [main_model, ho, PostedEntity.isService]
    | ok resp =>
      have hfind := finding_loop_posts_findings oracle
        (parse_kics_results path input (repoShortName full)).1 1
      have hnil : List.filter PostedEntity.isService
          (finding_loop oracle (parse_kics_results path input (repoShortName full)).1 1).1
            = [] :=
        List.filter_eq_nil_iff.mpr (fun p hp => by simp [hfind p hp])
      simp [main_model, ho, PostedEntity.isService, hnil]
  · cases ho : oracle 0 with
    | error e => simp [main_model, ho]
    | ok resp => simp [main_model, ho]
  · have hfl : finding_loop (fun n => if n = 0 then Except.ok r else oracle n)
          (parse_kics_results path input (repoShortName full)).1 1
        = finding_loop (fun n => if n = 0 then Except.ok r' else oracle n)
          (parse_kics_results path input (repoShortName full)).1 1 := by
      refine finding_loop_congr _ _ _ _ (fun n hn => ?_)
      have hne : ¬ n = 0 := by omega
      simp [hne]
    simp [main_model, hfl]

/-- Witness for C4 at concrete inputs: a run on a missing report file with
an all-succeeding oracle, comparing a 500 response and a 200 response to
the service post. -/
theorem service_upsert_once_unretried_unchecked_witness :
    (@main_model Unit "org/w4" "r.json" .notFound
        (fun _ => .ok ⟨200, "ok"⟩)).posts.filter PostedEntity.isService
      = [.service (@main_model Unit "org/w4" "r.json" .notFound
          (fun _ => .ok ⟨200, "ok"⟩)).service_entity] ∧
    (@main_model Unit "org/w4" "r.json" .notFound
        (fun _ => .ok ⟨200, "ok"⟩)).posts.head?
      = some (.service (@main_model Unit "org/w4" "r.json" .notFound
          (fun _ => .ok ⟨200, "ok"⟩)).service_entity) ∧
    @main_model Unit "org/w4" "r.json" .notFound
        (fun n => if n = 0 then .ok ⟨500, "server error"⟩
          else (fun _ => (.ok ⟨200, "ok"⟩ : Except Unit HttpResponse)) n)
      = @main_model Unit "org/w4" "r.json" .notFound
        (fun n => if n = 0 then .ok ⟨200, "ok"⟩
          else (fun _ => (.ok ⟨200, "ok"⟩ : Except Unit HttpResponse)) n) :=
  service_upsert_once_unretried_unchecked "org/w4" "r.json" .notFound
    (fun _ => .ok ⟨200, "ok"⟩) ⟨500, "server error"⟩ ⟨200, "ok"⟩

/-- C5: the service entity's relation set is exactly the list of
identifiers of the parsed finding entities, and in a run whose posts all
succeed each of those finding entities is subsequently upserted, once and
in order, after the service post. -/
theorem relations_reference_upserted_findings {E : Type}
    (full path : String) (input : FileInput)
    (oracle : Nat → Except E HttpResponse) :
    (main_model full path input oracle).service_entity.relations.kicsScan
      = (main_model full path input oracle).results.map FindingEntity.identifier ∧
    ((∀ n, ∃ r, oracle n = .ok r) →
      (main_model full path input oracle).posts
        = .service (main_model full path input oracle).service_entity
            :: (main_model full path input oracle).results.map PostedEntity.finding) := by
  constructor
  · cases ho : oracle 0 with
    | error e => simp [main_model, ho, create_service_entity]
    | ok resp => simp [main_model, ho, create_service_entity]
  · intro hok
    obtain ⟨r, hr⟩ := hok 0
    have hfl := finding_loop_all_ok oracle hok
      (parse_kics_results path input (repoShortName full)).1 1
    simp [main_model, hr, hfl]

/-- Witness for C5: a run on a one-query report with an all-succeeding
oracle posts the service entity first and then its single related
finding. -/
theorem relations_reference_upserted_findings_witness :
    (@main_model Unit "org/w5repo" "r.json"
        (.content (.obj [("queries", .arr
          [.obj [("query_id", .str "QW"), ("query_name", .str "NW"),
                 ("category", .str "cw"), ("cloud_provider", .str "pw"),
                 ("description", .str "dw"), ("files", .arr [.str "fw"]),
                 ("severity", .str "LOW"), ("platform", .str "tw")]])]))
        (fun _ => .ok ⟨200, "ok"⟩)).service_entity.relations.kicsScan
      = (@main_model Unit "org/w5repo" "r.json"
          (.content (.obj [("queries", .arr
            [.obj [("query_id", .str "QW"), ("query_name", .str "NW"),
                   ("category", .str "cw"), ("cloud_provider", .str "pw"),
                   ("description", .str "dw"), ("files", .arr [.str "fw"]),
                   ("severity", .str "LOW"), ("platform", .str "tw")]])]))
          (fun _ => .ok ⟨200, "ok"⟩)).results.map FindingEntity.identifier ∧
    (@main_model Unit "org/w5repo" "r.json"
        (.content (.obj [("queries", .arr
          [.obj [("query_id", .str "QW"), ("query_name", .str "NW"),
                 ("category", .str "cw"), ("cloud_provider", .str "pw"),
                 ("description", .str "dw"), ("files", .arr [.str "fw"]),
                 ("severity", .str "LOW"), ("platform", .str "tw")]])]))
        (fun _ => .ok ⟨200, "ok"⟩)).posts
      = .service (@main_model Unit "org/w5repo" "r.json"
          (.content (.obj [("queries", .arr
            [.obj [("query_id", .str "QW"), ("query_name", .str "NW"),
                   ("category", .str "cw"), ("cloud_provider", .str "pw"),
                   ("description", .str "dw"), ("files", .arr [.str "fw"]),
                   ("severity", .str "LOW"), ("platform", .str "tw")]])]))
          (fun _ => .ok ⟨200, "ok"⟩)).service_entity
          :: (@main_model Unit "org/w5repo" "r.json"
            (.content (.obj [("queries", .arr
              [.obj [("query_id", .str "QW"), ("query_name", .str "NW"),
                     ("category", .str "cw"), ("cloud_provider", .str "pw"),
                     ("description", .str "dw"), ("files", .arr [.str "fw"]),
                     ("severity", .str "LOW"), ("platform", .str "tw")]])]))
            (fun _ => .ok ⟨200, "ok"⟩)).results.map PostedEntity.finding :=
  ⟨(relations_reference_upserted_findings "org/w5repo" "r.json" _ _).1,
   (relations_reference_upserted_findings "org/w5repo" "r.json" _ _).2
     (fun _ => ⟨⟨200, "ok"⟩, rfl⟩)⟩

end PortKics
